import Mathlib

/-!
Shallow embedding of the Forklore.ai scoring engine
(`scripts/06_compute_scores.py`): the decay model, mention scorer,
evidence filter, per-restaurant aggregator `compute_restaurant_scores`,
and the pure core of the batch driver `recompute_all_scores`.

Modelling conventions:
* Python floats are modelled as real numbers (`ℝ`).
* Instants (`datetime`) are modelled as integer seconds; Python's
  `(now - timestamp).days` is `Int.fdiv` by 86400 (both floor).
* Python's `str.replace` (replace all non-overlapping occurrences,
  left to right) and slicing `s[:n]` (by code points) are modelled as
  structurally recursive functions on `List Char` so that concrete
  instances evaluate in the kernel.
* Python's `sorted(..., key=score, reverse=True)` (a stable sort,
  descending on the key, ties keeping input order) is modelled as a
  stable insertion sort.
-/

namespace Forklore

/-- A Reddit mention record, as the dict built in `recompute_all_scores`
plus the optional `post_upvotes` key read by `compute_restaurant_scores`
(`m.get("post_upvotes", 0)`). -/
structure Mention where
  subreddit : String
  post_id : String
  comment_id : Option String
  score : Int
  post_upvotes : Int := 0
  timestamp : Int
  snippet : String
deriving DecidableEq

/-- One entry of `top_snippets`. -/
structure Snippet where
  text : String
  score : Int
  permalink : String
deriving DecidableEq

/-- The aggregate dict returned by `compute_restaurant_scores`. -/
structure Agg where
  place_id : String
  iconic_score : ℝ
  trending_score : ℝ
  mentions_90d : Nat
  unique_threads : Nat
  total_mentions : Nat
  total_upvotes : Int
  last_seen : Int
  top_snippets : List Snippet

/-- `HALF_LIFE_DAYS = 45`. -/
def HALF_LIFE_DAYS : ℝ := 45

/-- `TRENDING_WINDOW_DAYS = 90`. -/
def TRENDING_WINDOW_DAYS : Int := 90

/-- `MIN_THREADS = 2`. -/
def MIN_THREADS : Nat := 2

/-- `MIN_TOTAL_UPVOTES = 10`. -/
def MIN_TOTAL_UPVOTES : Int := 10

/-- `recency_decay(age_days, half_life)`: `k = log(2)/half_life`;
returns `exp(-k * age_days)`. -/
noncomputable def recency_decay (age_days : ℝ) (half_life : ℝ := HALF_LIFE_DAYS) : ℝ :=
  Real.exp (-(Real.log 2 / half_life) * age_days)

/-- `mention_score(comment_upvotes, post_upvotes, age_days, context_chars)`:
`sqrt(comment_upvotes + 1) + 0.3 * sqrt(post_upvotes + 1)`, times the
recency decay, times `1.0 + min(0.3, context_chars / 10000)`. -/
noncomputable def mention_score (comment_upvotes post_upvotes : Int) (age_days : ℝ)
    (context_chars : Nat) : ℝ :=
  let upvote_weight :=
    Real.sqrt ((comment_upvotes : ℝ) + 1) + 0.3 * Real.sqrt ((post_upvotes : ℝ) + 1)
  let decay := recency_decay age_days
  let context_boost := 1.0 + min 0.3 ((context_chars : ℝ) / 10000)
  upvote_weight * decay * context_boost

/-- If `pat` is a prefix of the list, return the remainder. -/
def dropPre : List Char → List Char → Option (List Char)
  | [], s => some s
  | _ :: _, [] => none
  | p :: ps, c :: cs => if p = c then dropPre ps cs else none

/-- Fuelled worker for `pyReplace`: replaces non-overlapping occurrences of
`pat` left to right. A fuel of the input's length suffices for non-empty
patterns, since every step consumes at least one character. -/
def pyReplaceAux (pat repl : List Char) : Nat → List Char → List Char
  | _, [] => []
  | 0, s => s
  | fuel + 1, c :: cs =>
    match dropPre pat (c :: cs) with
    | some rest => repl ++ pyReplaceAux pat repl fuel rest
    | none => c :: pyReplaceAux pat repl fuel cs

/-- Python's `s.replace(pat, repl)` for a non-empty pattern: all
non-overlapping occurrences, scanned left to right. -/
def pyReplace (s pat repl : String) : String :=
  ⟨pyReplaceAux pat.data repl.data s.data.length s.data⟩

/-- Python's slice `s[:n]` (by code points). -/
def pyTruncate (s : String) (n : Nat) : String :=
  ⟨s.data.take n⟩

/-- The permalink built for a snippet:
`f"https://reddit.com/r/{subreddit}/comments/{post_id.replace('t3_','')}"`
plus `f"/_/{comment_id.replace('t1_','')}"` when `m.get("comment_id")` is
truthy (present and non-empty). -/
def permalink_of (m : Mention) : String :=
  "https://reddit.com/r/" ++ m.subreddit ++ "/comments/" ++ pyReplace m.post_id "t3_" ""
    ++ (match m.comment_id with
        | some c => if c = "" then "" else "/_/" ++ pyReplace c "t1_" ""
        | none => "")

/-- Insert into a list already sorted by `score` descending, after all
elements of strictly greater score and before the first element of equal
or smaller score. -/
def insertByScoreDesc (x : Mention) : List Mention → List Mention
  | [] => [x]
  | y :: ys => if x.score < y.score then y :: insertByScoreDesc x ys else x :: y :: ys

/-- Stable sort by `score` descending, equal scores keeping input order:
the semantics of `sorted(mentions, key=lambda m: m["score"], reverse=True)`. -/
def sortByScoreDesc : List Mention → List Mention
  | [] => []
  | x :: xs => insertByScoreDesc x (sortByScoreDesc xs)

/-- `top_snippets`: take the first 3 of the sorted mentions, truncate each
snippet to 200 characters, attach the permalink. -/
def top_snippets (mentions : List Mention) : List Snippet :=
  ((sortByScoreDesc mentions).take 3).map fun m =>
    { text := pyTruncate m.snippet 200, score := m.score, permalink := permalink_of m }

/-- `unique_threads = len(set(m["post_id"] for m in mentions))`. -/
def unique_threads (mentions : List Mention) : Nat :=
  ((mentions.map fun m => m.post_id).dedup).length

/-- `total_upvotes = sum(m["score"] for m in mentions)`. -/
def total_upvotes (mentions : List Mention) : Int :=
  (mentions.map fun m => m.score).sum

/-- `age_days = (now - mention["timestamp"]).days` (floor division). -/
def age_days_of (now : Int) (m : Mention) : Int :=
  (now - m.timestamp).fdiv 86400

/-- `last_seen = max(m["timestamp"] for m in mentions)` (0 is never used:
the caller guards against the empty list). -/
def last_seen : List Mention → Int
  | [] => 0
  | m :: ms => ms.foldl (fun acc x => max acc x.timestamp) m.timestamp

/-- The score the aggregation loop computes for one mention:
`mention_score(m["score"], m.get("post_upvotes", 0), age_days, len(m["snippet"]))`. -/
noncomputable def score_of (now : Int) (m : Mention) : ℝ :=
  mention_score m.score m.post_upvotes ((age_days_of now m : Int) : ℝ) m.snippet.length

/-- Python's `round(x, 2)` on the real model (round to nearest hundredth). -/
noncomputable def round2 (x : ℝ) : ℝ :=
  ((round (x * 100) : ℤ) : ℝ) / 100

/-- `compute_restaurant_scores(place_id, mentions)`: `None` on an empty
list; `None` when `unique_threads < MIN_THREADS and total_upvotes <
MIN_TOTAL_UPVOTES`; otherwise the aggregate dict. The impure
`datetime.now()` read is the explicit `now` parameter. -/
noncomputable def compute_restaurant_scores (place_id : String) (mentions : List Mention)
    (now : Int) : Option Agg :=
  if mentions.isEmpty then none
  else if unique_threads mentions < MIN_THREADS ∧ total_upvotes mentions < MIN_TOTAL_UPVOTES then
    none
  else
    let recent := mentions.filter fun m => age_days_of now m ≤ TRENDING_WINDOW_DAYS
    some
      { place_id := place_id
        iconic_score := round2 ((mentions.map (score_of now)).sum)
        trending_score := round2 ((recent.map (score_of now)).sum)
        mentions_90d := recent.length
        unique_threads := unique_threads mentions
        total_mentions := mentions.length
        total_upvotes := total_upvotes mentions
        last_seen := last_seen mentions
        top_snippets := top_snippets mentions }

/-- One row of the `RedditMention` query in `recompute_all_scores`. -/
structure Row where
  place_id : String
  subreddit : String
  post_id : String
  comment_id : Option String
  score : Int
  timestamp : Int
  snippet : String
deriving DecidableEq

/-- The mention dict built from a row (no `post_upvotes` key, so the
`get` default 0 applies). -/
def mention_of_row (r : Row) : Mention :=
  { subreddit := r.subreddit, post_id := r.post_id, comment_id := r.comment_id,
    score := r.score, post_upvotes := 0, timestamp := r.timestamp, snippet := r.snippet }

/-- Append one row's mention to its place's group, keeping first-appearance
key order (Python dict insertion order). -/
def insert_row (pid : String) (m : Mention) :
    List (String × List Mention) → List (String × List Mention)
  | [] => [(pid, [m])]
  | (p, ms) :: rest =>
    if p = pid then (p, ms ++ [m]) :: rest else (p, ms) :: insert_row pid m rest

/-- `mentions_by_place`: group the fetched rows by `place_id`, preserving
row order within each group. -/
def group_by_place (rows : List Row) : List (String × List Mention) :=
  rows.foldl (fun acc r => insert_row r.place_id (mention_of_row r) acc) []

/-- The pure core of `recompute_all_scores`: group by place, compute each
aggregate, keep those passing the evidence rule. -/
noncomputable def aggregate (rows : List Row) (now : Int) : List Agg :=
  (group_by_place rows).filterMap fun g => compute_restaurant_scores g.1 g.2 now

/-- Modelled from the spec (for comparison with the code): insert for a sort
by `upvoteCount` descending with ties broken by earlier `timestamp` first. -/
def insertSpecOrder (x : Mention) : List Mention → List Mention
  | [] => [x]
  | y :: ys =>
    if y.score < x.score ∨ (x.score = y.score ∧ x.timestamp < y.timestamp) then x :: y :: ys
    else y :: insertSpecOrder x ys

/-- Modelled from the spec: sort by `upvoteCount` descending, ties broken by
earlier `timestamp` first. -/
def sortSpecOrder : List Mention → List Mention
  | [] => []
  | x :: xs => insertSpecOrder x (sortSpecOrder xs)

/-- Modelled from the spec: `topSnippets` built from the timestamp-tie-broken
sort. -/
def top_snippets_spec (mentions : List Mention) : List Snippet :=
  ((sortSpecOrder mentions).take 3).map fun m =>
    { text := pyTruncate m.snippet 200, score := m.score, permalink := permalink_of m }

/-- Modelled from the spec: strip a type tag (`t3_`, `t1_`) only when it is
a prefix. -/
def dropTypeTag (pre s : String) : String :=
  if pre.data.isPrefixOf s.data then ⟨s.data.drop pre.data.length⟩ else s

/-- Modelled from the spec: permalink with the type *prefix* stripped and
the comment suffix appended exactly when a comment id is present. -/
def permalink_spec (m : Mention) : String :=
  "https://reddit.com/r/" ++ m.subreddit ++ "/comments/" ++ dropTypeTag "t3_" m.post_id
    ++ (match m.comment_id with
        | some c => "/_/" ++ dropTypeTag "t1_" c
        | none => "")

/-- Claim C1: aggregation is a deterministic function of the mention rows and
the reference instant: two runs on identical input and reference instant yield
identical output, including the ordering of `top_snippets`. -/
theorem aggregate_deterministic (rows₁ rows₂ : List Row) (now₁ now₂ : Int)
    (hrows : rows₁ = rows₂) (hnow : now₁ = now₂) :
    aggregate rows₁ now₁ = aggregate rows₂ now₂ := by
  rw [hrows, hnow]

def wrow : Row :=
  { place_id := "p", subreddit := "s", post_id := "t3_a", comment_id := none,
    score := 10, timestamp := 0, snippet := "hi" }

theorem aggregate_deterministic_witness :
    aggregate [wrow] 0 = aggregate [wrow] 0 :=
  aggregate_deterministic [wrow] [wrow] 0 0 rfl rfl

/-- Claim C9: on an empty input mention collection the pipeline returns an
empty aggregate list and does not raise an error. -/
theorem aggregate_empty (now : Int) : aggregate [] now = [] := rfl

/-- Claim C10: `compute_restaurant_scores` returns `None` in exactly two
cases, an empty mention list or a group rejected by the evidence rule, and
both cases produce the same value `none`, so a caller cannot distinguish
them. -/
theorem compute_none_iff (pid : String) (ms : List Mention) (now : Int) :
    compute_restaurant_scores pid ms now = none ↔
      ms = [] ∨ (unique_threads ms < MIN_THREADS ∧ total_upvotes ms < MIN_TOTAL_UPVOTES) := by
  unfold compute_restaurant_scores
  rcases ms with _ | ⟨m, ms'⟩
  · simp
  · by_cases h2 : unique_threads (m :: ms') < MIN_THREADS ∧
        total_upvotes (m :: ms') < MIN_TOTAL_UPVOTES
    · simp [h2]
    · simp [h2]

/-- Claim C5: for a non-empty entity group, an aggregate exists in the output
iff `unique_threads >= MIN_THREADS` or `total_upvotes >= MIN_TOTAL_UPVOTES`. -/
theorem evidence_gate_iff (pid : String) (ms : List Mention) (now : Int)
    (hne : ms ≠ []) :
    (compute_restaurant_scores pid ms now).isSome = true ↔
      MIN_THREADS ≤ unique_threads ms ∨ MIN_TOTAL_UPVOTES ≤ total_upvotes ms := by
  unfold compute_restaurant_scores
  rcases ms with _ | ⟨m, ms'⟩
  · exact absurd rfl hne
  · by_cases h2 : unique_threads (m :: ms') < MIN_THREADS ∧
        total_upvotes (m :: ms') < MIN_TOTAL_UPVOTES
    · simp [h2, not_or, not_le]
    · simp [h2]
      rcases not_and_or.mp h2 with h | h
      · exact Or.inl (not_lt.mp h)
      · exact Or.inr (not_lt.mp h)

def g5a : Mention :=
  { subreddit := "s", post_id := "a", comment_id := none, score := 9,
    post_upvotes := 0, timestamp := 0, snippet := "" }

def g5b : Mention :=
  { subreddit := "s", post_id := "a", comment_id := none, score := 10,
    post_upvotes := 0, timestamp := 0, snippet := "" }

def g5c : Mention :=
  { subreddit := "s", post_id := "a", comment_id := none, score := 0,
    post_upvotes := 0, timestamp := 0, snippet := "" }

def g5d : Mention :=
  { subreddit := "s", post_id := "b", comment_id := none, score := 0,
    post_upvotes := 0, timestamp := 0, snippet := "" }

theorem evidence_gate_iff_witness :
    (compute_restaurant_scores "p" [g5a] 0).isSome = false ∧
    (compute_restaurant_scores "p" [g5b] 0).isSome = true ∧
    (compute_restaurant_scores "p" [g5c, g5d] 0).isSome = true := by
  refine ⟨?_, ?_, ?_⟩
  · have h := evidence_gate_iff "p" [g5a] 0 (by decide)
    have h2 : ¬ ((compute_restaurant_scores "p" [g5a] 0).isSome = true) := by
      rw [h]; decide
    simpa using h2
  · exact (evidence_gate_iff "p" [g5b] 0 (by decide)).mpr (by decide)
  · exact (evidence_gate_iff "p" [g5c, g5d] 0 (by decide)).mpr (by decide)

theorem score_of_nonneg (now : Int) (m : Mention) : 0 ≤ score_of now m := by
  unfold score_of mention_score
  have h1 : 0 ≤ Real.sqrt ((m.score : ℝ) + 1) + 0.3 * Real.sqrt ((m.post_upvotes : ℝ) + 1) := by
    have := Real.sqrt_nonneg ((m.score : ℝ) + 1)
    have := Real.sqrt_nonneg ((m.post_upvotes : ℝ) + 1)
    nlinarith
  have h2 : 0 ≤ recency_decay ((age_days_of now m : Int) : ℝ) :=
    le_of_lt (Real.exp_pos _)
  have h3 : (0:ℝ) ≤ 1.0 + min 0.3 ((m.snippet.length : ℝ) / 10000) := by
    have hc : (0:ℝ) ≤ (m.snippet.length : ℝ) / 10000 := by positivity
    have : (0:ℝ) ≤ min 0.3 ((m.snippet.length : ℝ) / 10000) :=
      le_min (by norm_num) hc
    linarith
  exact mul_nonneg (mul_nonneg h1 h2) h3

theorem sum_map_filter_le (f : Mention → ℝ) (p : Mention → Bool) (ms : List Mention)
    (hf : ∀ m, 0 ≤ f m) :
    (((ms.filter p).map f).sum) ≤ ((ms.map f).sum) := by
  induction ms with
  | nil => simp
  | cons m ms ih =>
    by_cases h : p m
    · simp only [List.filter_cons, h, if_pos, List.map_cons, List.sum_cons]
      linarith
    · simp only [List.filter_cons, h, List.map_cons, List.sum_cons]
      simp only [Bool.false_eq_true, if_neg, not_false_iff]
      have := hf m
      linarith

theorem round2_mono {x y : ℝ} (h : x ≤ y) : round2 x ≤ round2 y := by
  unfold round2
  have hr : round (x * 100) ≤ round (y * 100) := by
    rw [round_eq, round_eq]
    exact Int.floor_le_floor (by linarith)
  have hc : ((round (x * 100) : ℤ) : ℝ) ≤ ((round (y * 100) : ℤ) : ℝ) := by exact_mod_cast hr
  linarith

/-- Claim C6: for every output aggregate produced from mentions with
non-negative upvote counts and non-negative ages, the trending score is at
most the iconic score. -/
theorem trending_le_iconic (pid : String) (ms : List Mention) (now : Int)
    (_hval : ∀ m ∈ ms, 0 ≤ m.score ∧ 0 ≤ m.post_upvotes ∧ m.timestamp ≤ now)
    (agg : Agg) (h : compute_restaurant_scores pid ms now = some agg) :
    agg.trending_score ≤ agg.iconic_score := by
  unfold compute_restaurant_scores at h
  by_cases h1 : ms.isEmpty
  · simp [h1] at h
  · by_cases h2 : unique_threads ms < MIN_THREADS ∧ total_upvotes ms < MIN_TOTAL_UPVOTES
    · simp [h1, h2] at h
    · simp only [h1, h2, if_neg, if_false, Bool.false_eq_true, not_false_iff] at h
      cases h
      exact round2_mono (sum_map_filter_le (score_of now) _ ms (fun m => score_of_nonneg now m))

def wm6 : Mention :=
  { subreddit := "s", post_id := "t3_a", comment_id := none, score := 10,
    post_upvotes := 0, timestamp := 0, snippet := "hi" }

noncomputable def wagg6 : Agg :=
  (compute_restaurant_scores "p" [wm6] 0).get rfl

theorem trending_le_iconic_witness : wagg6.trending_score ≤ wagg6.iconic_score := by
  have h : compute_restaurant_scores "p" [wm6] 0 = some wagg6 := rfl
  exact trending_le_iconic "p" [wm6] 0 (by decide) wagg6 h

/-- Claim C8: the decay function equals `exp(-ln(2) * ageDays / halfLifeDays)`,
is strictly decreasing in the age for a positive half-life, and equals `1/2`
at `ageDays = halfLifeDays` (exactly, in the real model). -/
theorem recency_decay_spec :
    (∀ a h : ℝ, recency_decay a h = Real.exp (-(Real.log 2) * a / h)) ∧
    (∀ h : ℝ, 0 < h → ∀ a₁ a₂ : ℝ, 0 ≤ a₁ → a₁ < a₂ →
      recency_decay a₂ h < recency_decay a₁ h) ∧
    (∀ h : ℝ, 0 < h → recency_decay h h = 1 / 2) := by
  refine ⟨?_, ?_, ?_⟩
  · intro a h
    unfold recency_decay
    congr 1
    ring
  · intro h hh a₁ a₂ _ hlt
    unfold recency_decay
    rw [Real.exp_lt_exp]
    have hk : 0 < Real.log 2 / h := div_pos (Real.log_pos (by norm_num)) hh
    nlinarith
  · intro h hh
    unfold recency_decay
    rw [show -(Real.log 2 / h) * h = -Real.log 2 by field_simp]
    rw [Real.exp_neg, Real.exp_log (by norm_num : (0:ℝ) < 2)]
    norm_num

theorem recency_decay_spec_witness :
    recency_decay 1 < recency_decay 0 ∧ recency_decay HALF_LIFE_DAYS = 1 / 2 :=
  ⟨recency_decay_spec.2.1 HALF_LIFE_DAYS (by norm_num [HALF_LIFE_DAYS]) 0 1 le_rfl one_pos,
   recency_decay_spec.2.2 HALF_LIFE_DAYS (by norm_num [HALF_LIFE_DAYS])⟩

theorem sqrt_ten_bounds : (3.162 : ℝ) ≤ Real.sqrt 10 ∧ Real.sqrt 10 ≤ 3.163 := by
  constructor
  · nlinarith [Real.sq_sqrt (show (0:ℝ) ≤ 10 by norm_num), Real.sqrt_nonneg 10]
  · nlinarith [Real.sq_sqrt (show (0:ℝ) ≤ 10 by norm_num), Real.sqrt_nonneg 10]

theorem mention_score_at_zero : mention_score 9 0 0 0 = Real.sqrt 10 + 0.3 := by
  unfold mention_score recency_decay
  push_cast
  norm_num [Real.exp_zero, Real.sqrt_one]

theorem mention_score_at_45 : mention_score 9 0 45 0 = (Real.sqrt 10 + 0.3) / 2 := by
  unfold mention_score recency_decay HALF_LIFE_DAYS
  rw [show -(Real.log 2 / (45:ℝ)) * 45 = -Real.log 2 by field_simp]
  rw [Real.exp_neg, Real.exp_log (by norm_num : (0:ℝ) < 2)]
  push_cast
  norm_num [Real.sqrt_one]
  ring

/-- Claim C7 counterexample: at `commentUpvotes=9, postUpvotes=0, ageDays=0,
contextChars=0` the score is `sqrt(10) + 0.3*sqrt(1) = 3.462...`, more than
`0.1` away from the spec's claimed `3.16`; at `ageDays=45` it is `1.731...`,
more than `0.1` away from the claimed `1.58`. -/
theorem mention_score_example_counterexample :
    (1/10 : ℝ) < |mention_score 9 0 0 0 - 3.16| ∧
    (1/10 : ℝ) < |mention_score 9 0 45 0 - 1.58| := by
  have h0 := mention_score_at_zero
  have h45 := mention_score_at_45
  have hb := sqrt_ten_bounds
  constructor
  · rw [h0, abs_of_nonneg (by linarith [hb.1])]
    linarith [hb.1]
  · rw [h45, abs_of_nonneg (by linarith [hb.1])]
    linarith [hb.1]

/-- Claim C7 amended: the per-mention score equals
`(sqrt(commentUpvotes+1) + 0.3*sqrt(postUpvotes+1)) * decay(ageDays) *
(1 + min(0.3, contextChars/10000))`; at `9, 0, 0, 0` the value is about
`3.46` (the spec's `3.16` drops the `0.3*sqrt(postUpvotes+1)` term), and at
`ageDays=45` about `1.73`. -/
theorem mention_score_amended :
    (∀ (c p : Int) (a : ℝ) (ch : Nat),
      mention_score c p a ch =
        (Real.sqrt ((c:ℝ) + 1) + 0.3 * Real.sqrt ((p:ℝ) + 1)) * recency_decay a *
          (1.0 + min 0.3 ((ch:ℝ) / 10000))) ∧
    |mention_score 9 0 0 0 - 3.46| ≤ 1/100 ∧
    |mention_score 9 0 45 0 - 1.73| ≤ 1/100 := by
  refine ⟨fun c p a ch => rfl, ?_, ?_⟩
  · rw [mention_score_at_zero]
    rw [abs_le]
    constructor <;> linarith [sqrt_ten_bounds.1, sqrt_ten_bounds.2]
  · rw [mention_score_at_45]
    rw [abs_le]
    constructor <;> linarith [sqrt_ten_bounds.1, sqrt_ten_bounds.2]

def vm1 : Mention :=
  { subreddit := "s", post_id := "a", comment_id := none, score := -1,
    post_upvotes := 0, timestamp := 864000, snippet := "x" }

def vm2 : Mention :=
  { subreddit := "s", post_id := "b", comment_id := none, score := 0,
    post_upvotes := 0, timestamp := 0, snippet := "y" }

/-- Claim C2 counterexample: a group containing a mention with a negative
upvote count and a future timestamp (negative age) is aggregated normally,
with the malformed record counted and its negative score summed into
`total_upvotes` — no error of any kind is raised. -/
theorem validation_counterexample :
    vm1.score < 0 ∧ age_days_of 0 vm1 < 0 ∧
    (compute_restaurant_scores "p" [vm1, vm2] 0).map
      (fun a => (a.total_upvotes, a.total_mentions)) = some (-1, 2) :=
  ⟨by decide, by decide, rfl⟩

/-- Claim C2 amended: the code performs no input validation. A mention with
a negative upvote count or a future timestamp is silently included: its
negative score is summed into totals, the record still counts toward
`total_mentions` and `mentions_90d`, and a negative age yields a decay
factor above 1 rather than an error. -/
theorem validation_amended :
    (∀ a : ℝ, a < 0 → 1 < recency_decay a) ∧
    (compute_restaurant_scores "p" [vm1, vm2] 0).map
      (fun a => (a.total_upvotes, a.total_mentions, a.mentions_90d)) = some (-1, 2, 2) := by
  constructor
  · intro a ha
    unfold recency_decay
    rw [Real.one_lt_exp_iff]
    have hk : 0 < Real.log 2 / HALF_LIFE_DAYS :=
      div_pos (Real.log_pos (by norm_num)) (by norm_num [HALF_LIFE_DAYS])
    nlinarith
  · rfl

theorem validation_amended_witness : 1 < recency_decay (-1) :=
  validation_amended.1 (-1) (by norm_num)

def tm1 : Mention :=
  { subreddit := "s", post_id := "b", comment_id := none, score := 20,
    post_upvotes := 0, timestamp := 100, snippet := "B" }

def tm2 : Mention :=
  { subreddit := "s", post_id := "a", comment_id := none, score := 20,
    post_upvotes := 0, timestamp := 0, snippet := "A" }

/-- Claim C3 counterexample: two mentions with equal upvotes where the
later-timestamped one comes first in the input list. The code's stable sort
keeps input order, so the later-timestamped mention ranks first, while the
spec's timestamp tie-break would rank the earlier-timestamped one first. -/
theorem snippet_tie_counterexample :
    tm2.timestamp < tm1.timestamp ∧ tm1.score = tm2.score ∧
    top_snippets [tm1, tm2] ≠ top_snippets_spec [tm1, tm2] ∧
    (top_snippets [tm1, tm2]).map (fun s => s.text) = ["B", "A"] ∧
    (top_snippets_spec [tm1, tm2]).map (fun s => s.text) = ["A", "B"] := by
  decide

def sm1 : Mention :=
  { subreddit := "s", post_id := "p1", comment_id := none, score := 5,
    post_upvotes := 0, timestamp := 1, snippet := "s1" }

def sm2 : Mention :=
  { subreddit := "s", post_id := "p2", comment_id := none, score := 20,
    post_upvotes := 0, timestamp := 2, snippet := "s2" }

def sm3 : Mention :=
  { subreddit := "s", post_id := "p3", comment_id := none, score := 3,
    post_upvotes := 0, timestamp := 3, snippet := "s3" }

def sm4 : Mention :=
  { subreddit := "s", post_id := "p4", comment_id := none, score := 20,
    post_upvotes := 0, timestamp := 4, snippet := "s4" }

def longm : Mention :=
  { subreddit := "s", post_id := "p5", comment_id := none, score := 1,
    post_upvotes := 0, timestamp := 5, snippet := String.mk (List.replicate 210 'a') }

set_option maxRecDepth 2000 in
/-- Claim C3 amended: `top_snippets` sorts by upvote count descending with
ties broken by *input order* (Python's stable sort), takes the top 3, and
truncates each snippet to 200 characters. On the spec's own scenario of
upvotes `[5, 20, 3, 20]` listed in timestamp order, the two upvote-20
mentions rank first (earlier one first, because input order coincides with
timestamp order there) and the upvote-3 mention is excluded. -/
theorem snippet_order_amended :
    ((top_snippets [sm1, sm2, sm3, sm4]).map (fun s => (s.score, s.text)) =
      [(20, "s2"), (20, "s4"), (5, "s1")] ∧
     (top_snippets [longm]).map (fun s => s.text) =
      [String.mk (List.replicate 200 'a')]) ∧
    (∀ (ms : List Mention) (s : Snippet), s ∈ top_snippets ms → s.text.data.length ≤ 200) := by
  refine ⟨⟨by decide, by decide⟩, ?_⟩
  intro ms s hs
  unfold top_snippets at hs
  rcases List.mem_map.mp hs with ⟨m, _, rfl⟩
  simp [pyTruncate, List.length_take]

theorem snippet_order_amended_witness :
    ({ text := "s2", score := 20, permalink := permalink_of sm2 } : Snippet).text.data.length
      ≤ 200 :=
  snippet_order_amended.2 [sm1, sm2, sm3, sm4] _ (by decide)

def cm4 : Mention :=
  { subreddit := "s", post_id := "xt3_y", comment_id := none, score := 1,
    post_upvotes := 0, timestamp := 0, snippet := "" }

/-- Claim C4 counterexample: for a thread id with an interior `t3_`
occurrence, the code (Python `str.replace`) removes it, so the permalink
differs from the spec's prefix-strip formula. -/
theorem permalink_counterexample :
    permalink_of cm4 = "https://reddit.com/r/s/comments/xy" ∧
    permalink_spec cm4 = "https://reddit.com/r/s/comments/xt3_y" ∧
    permalink_of cm4 ≠ permalink_spec cm4 := by
  decide

def km1 : Mention :=
  { subreddit := "s", post_id := "t3_abc", comment_id := some "t1_def",
    score := 1, post_upvotes := 0, timestamp := 0, snippet := "" }

def km2 : Mention :=
  { subreddit := "s", post_id := "t3_abc", comment_id := none,
    score := 1, post_upvotes := 0, timestamp := 0, snippet := "" }

def km3 : Mention :=
  { subreddit := "s", post_id := "t3_abc", comment_id := some "",
    score := 1, post_upvotes := 0, timestamp := 0, snippet := "" }

def km4 : Mention :=
  { subreddit := "s", post_id := "at3_b", comment_id := some "xt1_y",
    score := 1, post_upvotes := 0, timestamp := 0, snippet := "" }

/-- Claim C4 amended: the permalink is
`https://reddit.com/r/{communityId}/comments/{threadId}` with every
occurrence of `t3_` removed from the thread id (not just a prefix), and
`/_/{commentId}` (every `t1_` occurrence removed) appended exactly when the
comment id is present *and non-empty*. -/
theorem permalink_amended :
    permalink_of km1 = "https://reddit.com/r/s/comments/abc/_/def" ∧
    permalink_of km2 = "https://reddit.com/r/s/comments/abc" ∧
    permalink_of km3 = "https://reddit.com/r/s/comments/abc" ∧
    permalink_of km4 = "https://reddit.com/r/s/comments/ab/_/xy" := by
  decide

end Forklore
